import Mathlib

/-!
Shallow embedding of the PR-summarization pipeline of `git-summarizer`
(backend `AIService` in `src/services/ai.ts` and the summary routes in
`src/routes/repositories.ts`), together with theorems checking the
natural-language specification against it.

Strings are handled through their character lists so that every operation
is executable by the kernel.  JavaScript strings are modelled as Lean
`String`s (UTF-16 length subtleties are out of scope: all relevant
characters are ASCII).  Network responses and the wall clock are passed
explicitly as parameters.
-/

/-- Characters treated as whitespace by JavaScript `trim()` and by the regex
class `\s`, restricted to the ASCII range (all section markers and bullet
markers in the pipeline are ASCII). -/
def jsSpace (c : Char) : Bool :=
  c = ' ' || c = '\t' || c = '\n' || c = '\r' || c = '\x0b' || c = '\x0c'

/-- JavaScript `String.prototype.trim` on a character list. -/
def trimL (l : List Char) : List Char :=
  ((l.dropWhile jsSpace).reverse.dropWhile jsSpace).reverse

/-- `containsSub pat hay` models JavaScript `hay.includes(pat)`. -/
def containsSub (pat : List Char) : List Char → Bool
  | [] => pat.isPrefixOf []
  | c :: rest => pat.isPrefixOf (c :: rest) || containsSub pat rest

/-- Index of the first occurrence of `pat` in a character list, if any. -/
def firstIdx (pat : List Char) : List Char → Option Nat
  | [] => if pat.isPrefixOf ([] : List Char) then some 0 else none
  | c :: rest =>
    if pat.isPrefixOf (c :: rest) then some 0
    else (firstIdx pat rest).map (· + 1)

/-- JavaScript `s.split('\n')` on a character list. -/
def splitLines : List Char → List (List Char)
  | [] => [[]]
  | c :: rest =>
    match splitLines rest with
    | [] => [[]]
    | line :: more =>
      if c = '\n' then [] :: line :: more else (c :: line) :: more

/-- The three provider kinds of `type LLMProvider = 'openai' | 'claude' | 'ollama'`. -/
inductive LLMProvider
  | openai
  | claude
  | ollama
deriving DecidableEq, Repr

/-- The string value carried by an `LLMProvider` literal in the source. -/
def LLMProvider.str : LLMProvider → String
  | .openai => "openai"
  | .claude => "claude"
  | .ollama => "ollama"

/-- The `'low' | 'medium' | 'high'` literal union used for `impact` and
`reviewPriority`. -/
inductive Level
  | low
  | medium
  | high
deriving DecidableEq, Repr

/-- The fields of `interface PullRequest` read by the summarization pipeline
(`labels` keeps only the label names, the only part the pipeline uses). -/
structure PullRequest where
  id : String
  number : Nat
  title : String
  body : String
  authorLogin : String
  repoFullName : String
  changedFiles : Nat
  additions : Nat
  deletions : Nat
  labels : List String
deriving DecidableEq

/-- The summary record built by `AIService` (fields as constructed in
`parseSummaryResponse` / `createFallbackSummary`). -/
structure PRSummary where
  id : String
  prId : String
  summary : String
  keyChanges : List String
  impact : Level
  isReviewed : Bool
  isImportant : Bool
  createdAt : String
  aiProvider : String
  model : String
  confidence : ℚ
  reviewPriority : Level
deriving DecidableEq

/-- `interface AIProviderConfig`. -/
structure AIProviderConfig where
  provider : LLMProvider
  model : String
  maxTokens : Nat
  temperature : ℚ
deriving DecidableEq

/-- `Partial<AIProviderConfig>`: the per-call override object; absent keys are
`none` and the JavaScript spread `{ ...default, ...options }` keeps the default
for them. -/
structure PartialAIProviderConfig where
  provider : Option LLMProvider := none
  model : Option String := none
  maxTokens : Option Nat := none
  temperature : Option ℚ := none
deriving DecidableEq

/-- The spread `{ ...this.defaultConfig, ...options }` in `generatePRSummary`. -/
def mergeConfig (d : AIProviderConfig) (o : PartialAIProviderConfig) : AIProviderConfig :=
  { provider := o.provider.getD d.provider
    model := o.model.getD d.model
    maxTokens := o.maxTokens.getD d.maxTokens
    temperature := o.temperature.getD d.temperature }

/-- `AIService.determineImpact`: high/low keyword and size checks, in source
order (the first matching branch wins). -/
def determineImpact (content : String) (pullRequest : PullRequest) : Level :=
  let lowerContent := content.data.map Char.toLower
  if containsSub "breaking change".data lowerContent
      || containsSub "high impact".data lowerContent
      || containsSub "critical".data lowerContent
      || decide (pullRequest.changedFiles > 20)
      || decide (pullRequest.additions + pullRequest.deletions > 1000) then
    .high
  else if containsSub "low impact".data lowerContent
      || containsSub "minor".data lowerContent
      || containsSub "documentation".data lowerContent
      || decide (pullRequest.changedFiles ≤ 3)
      || decide (pullRequest.additions + pullRequest.deletions ≤ 50) then
    .low
  else
    .medium

/-- `AIService.extractReviewPriority`. -/
def extractReviewPriority (content : String) : Level :=
  let lowerContent := content.data.map Char.toLower
  if containsSub "high priority".data lowerContent
      || containsSub "urgent".data lowerContent then
    .high
  else if containsSub "low priority".data lowerContent then
    .low
  else
    .medium

/-- `AIService.calculateConfidence`.  The source guard
`pullRequest.body && pullRequest.body.length > 100` is equivalent to the
length check alone, since a body of length `> 100` is a truthy string. -/
def calculateConfidence (content : String) (pullRequest : PullRequest) : ℚ :=
  let confidence : ℚ := 7/10
  let confidence := if pullRequest.body.length > 100 then confidence + 1/10 else confidence
  let confidence := if pullRequest.labels.length > 0 then confidence + 1/10 else confidence
  let confidence :=
    if decide (content.length > 500) && containsSub "##".data content.data then
      confidence + 1/10
    else confidence
  min confidence 1

/-- The section captured by the regex
`/## Key Changes\s*([\s\S]*?)(?=##|$)/`: from the first occurrence of
`## Key Changes`, skip the heading and the following whitespace run (consumed
greedily by `\s*`), then take characters up to the next occurrence of `##`
anywhere (the lazy group with lookahead `(?=##|$)`), or to the end of the
string. -/
def keyChangesSection (content : String) : Option (List Char) :=
  match firstIdx "## Key Changes".data content.data with
  | none => none
  | some i =>
    let afterHeading :=
      (content.data.drop (i + "## Key Changes".data.length)).dropWhile jsSpace
    let stop := (firstIdx "##".data afterHeading).getD afterHeading.length
    some (afterHeading.take stop)

/-- The regex replace `line.replace(/^[-*]\s*/, '')`: the marker is removed
only when it is the first character of the (untrimmed) line. -/
def stripBulletMarker (line : List Char) : List Char :=
  match line with
  | [] => []
  | c :: rest => if c = '-' || c = '*' then rest.dropWhile jsSpace else c :: rest

/-- The filter `line.trim().startsWith('-') || line.trim().startsWith('*')`. -/
def isBulletLine (line : List Char) : Bool :=
  match trimL line with
  | [] => false
  | c :: _ => c = '-' || c = '*'

/-- `AIService.extractKeyChanges`: regex capture, split on newlines, keep
bullet lines, strip a leading marker, trim, drop empties, keep the first 5. -/
def extractKeyChanges (content : String) : List String :=
  match keyChangesSection content with
  | none => []
  | some keyChangesText =>
    let changes :=
      ((splitLines keyChangesText).filter isBulletLine).map
        (fun line => String.mk (trimL (stripBulletMarker line)))
    let changes := changes.filter (fun line => line.length > 0)
    changes.take 5

/-- The provider clients held by `AIService` (`this.openai` / `this.claude`
are set exactly when valid credentials for that vendor were configured) plus
the process-wide `defaultConfig`. -/
structure AIService where
  openaiInit : Bool
  claudeInit : Bool
  defaultConfig : AIProviderConfig
deriving DecidableEq

/-- `isAvailable()`. -/
def AIService.isAvailable (svc : AIService) : Bool :=
  svc.openaiInit || svc.claudeInit

/-- A content block of a Claude message response. -/
inductive ClaudeBlock
  | text (s : String)
  | nonText
deriving DecidableEq

/-- The transport-level responses the three backends would return for this
process; passed explicitly since the embedding cannot perform I/O.  `none`
models an absent (`null`/`undefined`) field. -/
structure ProviderEnv where
  openaiContent : Option String
  claudeBlock : Option ClaudeBlock
  ollamaOk : Bool
  ollamaResponse : Option String
deriving DecidableEq

/-- `AIService.callOpenAI`: fails if the client is missing; then
`if (!content) throw` rejects an absent or empty (falsy) string and any other
string — including whitespace-only — is returned. -/
def callOpenAI (svc : AIService) (env : ProviderEnv) : Except String String :=
  if !svc.openaiInit then
    .error "OpenAI client not initialized. Please check your API key."
  else
    match env.openaiContent with
    | none => .error "OpenAI returned empty response"
    | some content =>
      if content = "" then .error "OpenAI returned empty response" else .ok content

/-- `AIService.callClaude`: fails if the client is missing; an empty content
array makes `response.content[0].type` throw a `TypeError`; a non-text block
is rejected; a text block is returned unchecked (even when empty). -/
def callClaude (svc : AIService) (env : ProviderEnv) : Except String String :=
  if !svc.claudeInit then
    .error "Claude client not initialized. Please check your API key."
  else
    match env.claudeBlock with
    | none => .error "TypeError: Cannot read properties of undefined"
    | some .nonText => .error "Claude returned non-text response"
    | some (.text s) => .ok s

/-- `AIService.callOllama`: a non-ok HTTP status throws; otherwise
`data.response || ''` is returned (an absent field degrades to `""`). -/
def callOllama (env : ProviderEnv) : Except String String :=
  if !env.ollamaOk then
    .error "Ollama API error"
  else
    .ok (env.ollamaResponse.getD "")

/-- `AIService.callLLM`: dispatch on the (merged) config's provider. -/
def callLLM (svc : AIService) (env : ProviderEnv) (config : AIProviderConfig) :
    Except String String :=
  match config.provider with
  | .openai => callOpenAI svc env
  | .claude => callClaude svc env
  | .ollama => callOllama env

/-- `AIService.parseSummaryResponse`.  `now` is the value of
`new Date().toISOString()` at creation time. -/
def parseSummaryResponse (svc : AIService) (now : String) (content : String)
    (pullRequest : PullRequest) : PRSummary :=
  let keyChanges := extractKeyChanges content
  let impact := determineImpact content pullRequest
  { id := "summary-" ++ pullRequest.id
    prId := pullRequest.id
    summary := content
    keyChanges := keyChanges
    impact := impact
    isReviewed := false
    isImportant := decide (impact = Level.high)
    createdAt := now
    aiProvider := svc.defaultConfig.provider.str
    model := svc.defaultConfig.model
    confidence := calculateConfidence content pullRequest
    reviewPriority := extractReviewPriority content }

/-- `AIService.createFallbackSummary`. -/
def createFallbackSummary (now : String) (pullRequest : PullRequest)
    (error : String) : PRSummary :=
  let fallbackSummary :=
    "## Summary\nUnable to generate AI summary due to: " ++ error ++
    "\n\n## Manual Analysis\n- **Title**: " ++ pullRequest.title ++
    "\n- **Author**: " ++ pullRequest.authorLogin ++
    "\n- **Repository**: " ++ pullRequest.repoFullName ++
    "\n- **Changes**: " ++ toString pullRequest.changedFiles ++ " files, +" ++
    toString pullRequest.additions ++ "/-" ++ toString pullRequest.deletions ++
    " lines\n\n## Description\n" ++
    (if pullRequest.body = "" then "No description provided." else pullRequest.body) ++
    "\n\n*This is a fallback summary. AI analysis was unavailable.*"
  { id := "summary-" ++ pullRequest.id
    prId := pullRequest.id
    summary := fallbackSummary
    keyChanges := [toString pullRequest.changedFiles ++ " files changed",
      "+" ++ toString pullRequest.additions ++ "/-" ++ toString pullRequest.deletions ++ " lines"]
    impact := if pullRequest.changedFiles > 10 then .high
      else if pullRequest.changedFiles > 3 then .medium
      else .low
    isReviewed := false
    isImportant := false
    createdAt := now
    aiProvider := "fallback"
    model := "none"
    confidence := 3/10
    reviewPriority := .medium }

/-- `AIService.generatePRSummary`: merge the per-call overrides into the
default config, call the provider, parse on success, fall back on any thrown
error. -/
def generatePRSummary (svc : AIService) (env : ProviderEnv) (now : String)
    (pullRequest : PullRequest) (options : PartialAIProviderConfig) : PRSummary :=
  let config := mergeConfig svc.defaultConfig options
  match callLLM svc env config with
  | .ok summary => parseSummaryResponse svc now summary pullRequest
  | .error e => createFallbackSummary now pullRequest e

/-- The batching loop of `AIService.generateBatchSummaries`: slices of 5 PRs
are processed per round and their summaries appended in order (the pacing
delay between rounds has no effect on the returned value). -/
def batchLoop (gen : PullRequest → PRSummary) : List PullRequest → List PRSummary
  | [] => []
  | pr :: rest =>
    ((pr :: rest).take 5).map gen ++ batchLoop gen (rest.drop 4)
termination_by l => l.length
decreasing_by
  simp only [List.length_drop, List.length_cons]
  omega

/-- `AIService.generateBatchSummaries`. -/
def generateBatchSummaries (svc : AIService) (env : ProviderEnv) (now : String)
    (pullRequests : List PullRequest) (options : PartialAIProviderConfig) :
    List PRSummary :=
  batchLoop (fun pr => generatePRSummary svc env now pr options) pullRequests

/-- The sort `(a, b) => new Date(b.createdAt).getTime() - new Date(a.createdAt).getTime()`
applied by the summary routes: newest first.  ISO-8601 timestamps compare
chronologically as strings, so the comparator is modelled by string order on
`createdAt`; only the fact that sorting permutes the store matters below. -/
def sortByCreatedAtDesc (store : List PRSummary) : List PRSummary :=
  store.mergeSort (fun a b => b.createdAt ≤ a.createdAt)

/-- `PATCH /api/summaries/:id/reviewed`: find the first summary with this
`id`; `none` models the 404 `NotFound` response; otherwise the stored record's
`isReviewed` is negated in place and the updated record and store are
returned. -/
def toggleReviewed (id : String) : List PRSummary → Option (PRSummary × List PRSummary)
  | [] => none
  | s :: rest =>
    if s.id = id then
      let s' := { s with isReviewed := !s.isReviewed }
      some (s', s' :: rest)
    else
      (toggleReviewed id rest).map (fun p => (p.1, s :: p.2))

/-- `PATCH /api/summaries/:id/important`: same shape, negating `isImportant`. -/
def toggleImportant (id : String) : List PRSummary → Option (PRSummary × List PRSummary)
  | [] => none
  | s :: rest =>
    if s.id = id then
      let s' := { s with isImportant := !s.isImportant }
      some (s', s' :: rest)
    else
      (toggleImportant id rest).map (fun p => (p.1, s :: p.2))

/-- Result of the `POST /api/summaries/generate` handler: the summaries list
returned to the client and the store after the request. -/
structure GenerateResult where
  generated : List PRSummary
  newStore : List PRSummary
deriving DecidableEq

/-- Core of the `POST /api/summaries/generate` handler, after the pull
requests have been fetched: dedup against `summariesStore` (unless `force`),
truncate to `maxPRs`, batch-generate, on `force` evict old summaries for the
regenerated PR ids, append the new ones and re-sort. -/
def postGenerateSummaries (svc : AIService) (env : ProviderEnv) (now : String)
    (store : List PRSummary) (pullRequests : List PullRequest)
    (force : Bool) (maxPRs : Nat) : GenerateResult :=
  let existingSummaryPRIds := store.map (·.prId)
  let prsToSummarize :=
    if force then pullRequests.take maxPRs
    else (pullRequests.filter (fun pr => !(existingSummaryPRIds.contains pr.id))).take maxPRs
  if prsToSummarize.isEmpty then
    { generated := [], newStore := store }
  else
    let newSummaries := generateBatchSummaries svc env now prsToSummarize {}
    let store1 :=
      if force then
        let prIdsToReplace := prsToSummarize.map (·.id)
        store.filter (fun s => !(prIdsToReplace.contains s.prId))
      else store
    { generated := newSummaries
      newStore := sortByCreatedAtDesc (store1 ++ newSummaries) }

/-- Number of summaries currently stored for the PR identifier `x`. -/
def countId (x : String) (store : List PRSummary) : Nat :=
  store.countP (fun s => s.prId == x)

/-- The Store invariant: at most one current summary per PR identifier. -/
def AtMostOnePerPR (store : List PRSummary) : Prop :=
  ∀ x : String, countId x store ≤ 1

/-- A bullet entry of the Key Changes section as described by the (amended)
specification wording: a line whose trimmed form starts with `-` or `*`
contributes its content with a leading unindented marker stripped and the
result trimmed, unless that result is empty. -/
def bulletEntry (line : List Char) : Option String :=
  if isBulletLine line then
    let entry := trimL (stripBulletMarker line)
    if entry = [] then none else some (String.mk entry)
  else none

/-- Key-change extraction as described by the (amended) specification
wording, to be compared with the source translation `extractKeyChanges`. -/
def keyChangesAmendedSpec (content : String) : List String :=
  match keyChangesSection content with
  | none => []
  | some sec => ((splitLines sec).filterMap bulletEntry).take 5

/-! Concrete sample inputs used to instantiate the theorems below. -/

def defaultCfg : AIProviderConfig :=
  { provider := .openai, model := "gpt-4", maxTokens := 4000, temperature := 3/10 }

/-- Service with no valid credentials for any provider, default provider
`openai`. -/
def svcNoCreds : AIService := { openaiInit := false, claudeInit := false, defaultConfig := defaultCfg }

/-- Service with both hosted clients initialized. -/
def svcBoth : AIService := { openaiInit := true, claudeInit := true, defaultConfig := defaultCfg }

/-- Service with no credentials whose configured default provider is the
local `ollama` backend. -/
def svcOllamaNoCreds : AIService :=
  { openaiInit := false, claudeInit := false,
    defaultConfig := { provider := .ollama, model := "llama2", maxTokens := 4000, temperature := 3/10 } }

/-- Environment in which every backend transport fails or returns nothing. -/
def envDown : ProviderEnv :=
  { openaiContent := none, claudeBlock := none, ollamaOk := false, ollamaResponse := none }

/-- Environment in which the local ollama endpoint is reachable and answers. -/
def envOllamaUp : ProviderEnv :=
  { openaiContent := none, claudeBlock := none, ollamaOk := true, ollamaResponse := some "All good" }

/-- Environment whose transports succeed but return whitespace-only or empty
text content. -/
def envWhite : ProviderEnv :=
  { openaiContent := some " ", claudeBlock := some (.text ""), ollamaOk := true,
    ollamaResponse := some " " }

/-- Environment whose chat-completion transport succeeds with empty content. -/
def envEmptyOpenai : ProviderEnv :=
  { openaiContent := some "", claudeBlock := some (.text "ok"), ollamaOk := true,
    ollamaResponse := some "ok" }

def now0 : String := "2024-01-01T00:00:00.000Z"

def prSmall : PullRequest :=
  { id := "pr-1", number := 1, title := "Fix typo", body := "", authorLogin := "alice",
    repoFullName := "acme/repo", changedFiles := 2, additions := 10, deletions := 5, labels := [] }

def prCf25 : PullRequest :=
  { id := "pr-25", number := 25, title := "Big change", body := "", authorLogin := "bob",
    repoFullName := "acme/repo", changedFiles := 25, additions := 100, deletions := 100, labels := [] }

def prCf15 : PullRequest :=
  { id := "pr-15", number := 15, title := "Mid change", body := "", authorLogin := "bob",
    repoFullName := "acme/repo", changedFiles := 15, additions := 0, deletions := 0, labels := [] }

/-- A 20-character PR body. -/
def body20 : String := String.mk (List.replicate 20 'b')

/-- A 300-character response with no section markers. -/
def content300 : String := String.mk (List.replicate 300 'a')

def prBody20 : PullRequest :=
  { id := "pr-2", number := 2, title := "T", body := body20, authorLogin := "alice",
    repoFullName := "acme/repo", changedFiles := 2, additions := 10, deletions := 5, labels := [] }

/-- A stored summary record with the given identifiers and flags. -/
def mkSum (id prId : String) (rev imp : Bool) : PRSummary :=
  { id := id, prId := prId, summary := "s", keyChanges := [], impact := .low,
    isReviewed := rev, isImportant := imp, createdAt := "2024-01-01T00:00:00.000Z",
    aiProvider := "openai", model := "gpt-4", confidence := 7/10, reviewPriority := .medium }

def storeW : List PRSummary := [mkSum "s1" "p1" false false, mkSum "s2" "p2" false true]

def optsOllama : PartialAIProviderConfig := { provider := some .ollama, model := some "llama2" }

/-! ## Theorems -/

/-- The filter-map-filter pipeline of the source equals the filterMap of the
specification wording. -/
theorem filterPipeline_eq_filterMap (lines : List (List Char)) :
    ((lines.filter isBulletLine).map
        (fun line => String.mk (trimL (stripBulletMarker line)))).filter
      (fun line => line.length > 0) = lines.filterMap bulletEntry := by
  induction lines with
  | nil => rfl
  | cons l ls ih =>
    by_cases hb : isBulletLine l = true
    · rw [List.filter_cons_of_pos hb, List.map_cons]
      by_cases he : trimL (stripBulletMarker l) = []
      · have hq : (decide ((String.mk (trimL (stripBulletMarker l))).length > 0)) = false := by
          rw [show (String.mk (trimL (stripBulletMarker l))).length =
            (trimL (stripBulletMarker l)).length from rfl, he]
          rfl
        have hn : bulletEntry l = none := by
          unfold bulletEntry
          rw [if_pos hb, if_pos he]
        rw [List.filter_cons_of_neg (p := fun (line : String) => decide (line.length > 0))
            (by simp only [hq]; exact Bool.false_ne_true),
          List.filterMap_cons_none hn, ih]
      · have hp : 0 < (trimL (stripBulletMarker l)).length := List.length_pos.mpr he
        have hq : (decide ((String.mk (trimL (stripBulletMarker l))).length > 0)) = true := by
          rw [show (String.mk (trimL (stripBulletMarker l))).length =
            (trimL (stripBulletMarker l)).length from rfl]
          exact decide_eq_true hp
        have hs : bulletEntry l = some (String.mk (trimL (stripBulletMarker l))) := by
          unfold bulletEntry
          rw [if_pos hb, if_neg he]
        rw [List.filter_cons_of_pos (p := fun (line : String) => decide (line.length > 0)) hq,
          List.filterMap_cons_some hs, ih]
    · have hn : bulletEntry l = none := by
        unfold bulletEntry
        rw [if_neg hb]
      rw [List.filter_cons_of_neg (fun hc => hb hc), List.filterMap_cons_none hn, ih]

/-- C4 (amended): `extractKeyChanges` returns at most 5 entries, and equals
the amended description: the capture runs from the first occurrence of
`## Key Changes` (skipping whitespace) up to the next occurrence of `##` or
the end; lines whose trimmed form starts with `-` or `*` are kept; the marker
is stripped only when it is the line's first character; entries are trimmed,
empty ones dropped, and the first 5 kept. -/
theorem extractKeyChanges_spec (content : String) :
    (extractKeyChanges content).length ≤ 5 ∧
    extractKeyChanges content = keyChangesAmendedSpec content := by
  constructor
  · unfold extractKeyChanges
    cases h : keyChangesSection content with
    | none => simp
    | some sec =>
      dsimp only
      exact List.length_take_le 5 _
  · unfold extractKeyChanges keyChangesAmendedSpec
    cases h : keyChangesSection content with
    | none => rfl
    | some sec =>
      dsimp only
      rw [filterPipeline_eq_filterMap]

/-- C4 counterexample: an indented bullet line keeps its marker (the regex
replace anchors at the unindented start of the line), so the claim's
"marker stripped" reading `["a", "b"]` — and the strict "begins with a
bullet" reading `["a"]` — are both refuted. -/
theorem extractKeyChanges_counterexample :
    extractKeyChanges "## Key Changes\n- a\n  - b" = ["a", "- b"] ∧
    extractKeyChanges "## Key Changes\n- a\n  - b" ≠ ["a", "b"] ∧
    extractKeyChanges "## Key Changes\n- a\n  - b" ≠ ["a"] := by
  refine ⟨?_, by decide, by decide⟩
  decide

/-- C2: `determineImpact` returns `high` exactly when a high-impact keyword
occurs in the lowercased text or the size thresholds fire; only otherwise
`low` when a low-impact keyword occurs or the small-size thresholds fire;
`medium` in all remaining cases; and a PR with 25 changed files is always
`high`, regardless of a "low impact" cue in the text. -/
theorem determineImpact_rule (content : String) (pr : PullRequest) :
    (determineImpact content pr = Level.high ↔
      (containsSub "breaking change".data (content.data.map Char.toLower) = true ∨
       containsSub "high impact".data (content.data.map Char.toLower) = true ∨
       containsSub "critical".data (content.data.map Char.toLower) = true ∨
       20 < pr.changedFiles ∨ 1000 < pr.additions + pr.deletions)) ∧
    (determineImpact content pr = Level.low ↔
      (¬(containsSub "breaking change".data (content.data.map Char.toLower) = true ∨
         containsSub "high impact".data (content.data.map Char.toLower) = true ∨
         containsSub "critical".data (content.data.map Char.toLower) = true ∨
         20 < pr.changedFiles ∨ 1000 < pr.additions + pr.deletions) ∧
       (containsSub "low impact".data (content.data.map Char.toLower) = true ∨
        containsSub "minor".data (content.data.map Char.toLower) = true ∨
        containsSub "documentation".data (content.data.map Char.toLower) = true ∨
        pr.changedFiles ≤ 3 ∨ pr.additions + pr.deletions ≤ 50))) ∧
    (determineImpact content pr = Level.medium ↔
      (¬(containsSub "breaking change".data (content.data.map Char.toLower) = true ∨
         containsSub "high impact".data (content.data.map Char.toLower) = true ∨
         containsSub "critical".data (content.data.map Char.toLower) = true ∨
         20 < pr.changedFiles ∨ 1000 < pr.additions + pr.deletions) ∧
       ¬(containsSub "low impact".data (content.data.map Char.toLower) = true ∨
         containsSub "minor".data (content.data.map Char.toLower) = true ∨
         containsSub "documentation".data (content.data.map Char.toLower) = true ∨
         pr.changedFiles ≤ 3 ∨ pr.additions + pr.deletions ≤ 50))) ∧
    (pr.changedFiles = 25 → determineImpact content pr = Level.high) := by
  simp only [determineImpact]
  split_ifs with h1 h2
  · have hA := by
      simpa only [Bool.or_eq_true, decide_eq_true_eq, or_assoc, gt_iff_lt] using h1
    exact ⟨iff_of_true rfl hA, iff_of_false (by simp) (fun h => h.1 hA),
      iff_of_false (by simp) (fun h => h.1 hA), fun _ => rfl⟩
  · have hA := by
      simpa only [Bool.or_eq_true, decide_eq_true_eq, or_assoc, gt_iff_lt] using h1
    have hB := by
      simpa only [Bool.or_eq_true, decide_eq_true_eq, or_assoc] using h2
    refine ⟨iff_of_false (by simp) hA, iff_of_true rfl ⟨hA, hB⟩,
      iff_of_false (by simp) (fun h => h.2 hB), ?_⟩
    intro h25
    exact (hA (Or.inr (Or.inr (Or.inr (Or.inl (by omega)))))).elim
  · have hA := by
      simpa only [Bool.or_eq_true, decide_eq_true_eq, or_assoc, gt_iff_lt] using h1
    have hB := by
      simpa only [Bool.or_eq_true, decide_eq_true_eq, or_assoc] using h2
    refine ⟨iff_of_false (by simp) hA, iff_of_false (by simp) (fun h => hB h.2),
      iff_of_true rfl ⟨hA, hB⟩, ?_⟩
    intro h25
    exact (hA (Or.inr (Or.inr (Or.inr (Or.inl (by omega)))))).elim

/-- C2 witness: a PR with 25 changed files and narrative text containing
"low impact" is classified `high`. -/
theorem determineImpact_rule_witness :
    determineImpact "Overall a low impact tweak." prCf25 = Level.high :=
  (determineImpact_rule "Overall a low impact tweak." prCf25).2.2.2 (by decide)

/-- C5: the confidence heuristic equals 0.7 plus the three 0.1 bonuses,
clamped to 1; it always lies in [0,1]; and with a 20-character body, no
labels, a 300-character response and no `##` marker it is exactly 0.7. -/
theorem calculateConfidence_spec (content : String) (pr : PullRequest) :
    calculateConfidence content pr =
      min ((7 : ℚ)/10 + (if 100 < pr.body.length then (1 : ℚ)/10 else 0)
        + (if 0 < pr.labels.length then (1 : ℚ)/10 else 0)
        + (if 500 < content.length ∧ containsSub "##".data content.data = true
            then (1 : ℚ)/10 else 0)) 1 ∧
    0 ≤ calculateConfidence content pr ∧
    calculateConfidence content pr ≤ 1 ∧
    (pr.body.length = 20 → pr.labels.length = 0 → content.length = 300 →
      containsSub "##".data content.data = false →
      calculateConfidence content pr = 7/10) := by
  have heq : calculateConfidence content pr =
      min ((7 : ℚ)/10 + (if 100 < pr.body.length then (1 : ℚ)/10 else 0)
        + (if 0 < pr.labels.length then (1 : ℚ)/10 else 0)
        + (if 500 < content.length ∧ containsSub "##".data content.data = true
            then (1 : ℚ)/10 else 0)) 1 := by
    simp only [calculateConfidence, gt_iff_lt, Bool.and_eq_true, decide_eq_true_eq]
    by_cases hb : 100 < pr.body.length <;>
      by_cases hl : 0 < pr.labels.length <;>
        by_cases hc : 500 < content.length ∧ containsSub "##".data content.data = true <;>
          simp only [hb, hl, hc, if_true, if_false, ite_true, ite_false,
            if_pos, if_neg, not_false_iff] <;>
          norm_num
  have hnn : (0 : ℚ) ≤ (7 : ℚ)/10 + (if 100 < pr.body.length then (1 : ℚ)/10 else 0)
      + (if 0 < pr.labels.length then (1 : ℚ)/10 else 0)
      + (if 500 < content.length ∧ containsSub "##".data content.data = true
          then (1 : ℚ)/10 else 0) := by
    have n1 : (0 : ℚ) ≤ (if 100 < pr.body.length then (1 : ℚ)/10 else 0) := by
      split <;> norm_num
    have n2 : (0 : ℚ) ≤ (if 0 < pr.labels.length then (1 : ℚ)/10 else 0) := by
      split <;> norm_num
    have n3 : (0 : ℚ) ≤ (if 500 < content.length ∧ containsSub "##".data content.data = true
        then (1 : ℚ)/10 else 0) := by
      split <;> norm_num
    linarith
  refine ⟨heq, ?_, ?_, ?_⟩
  · rw [heq]
    exact le_min hnn (by norm_num)
  · rw [heq]
    exact min_le_right _ _
  · intro e1 e2 e3 e4
    rw [heq, if_neg (by omega), if_neg (by omega), if_neg (by rw [e4]; simp)]
    norm_num

set_option maxRecDepth 4000 in
/-- C5 witness: the scenario PR (20-character body, no labels) parsed from a
300-character response with no `##` marker has confidence exactly 0.7. -/
theorem calculateConfidence_spec_witness :
    calculateConfidence content300 prBody20 = 7/10 :=
  (calculateConfidence_spec content300 prBody20).2.2.2 (by decide) (by decide)
    (by decide) (by decide)

/-- C6 counterexample: a successfully parsed response whose impact is `high`
(here: the text contains "critical") is created with `isImportant = true`,
refuting the claim that every generated Summary starts with both flags
false. -/
theorem generation_flags_counterexample :
    ¬ ((parseSummaryResponse svcNoCreds now0 "This is a critical fix." prSmall).isImportant
        = false) := by decide

/-- C6 (amended): generated Summaries always start with `isReviewed = false`;
fallback Summaries also start with `isImportant = false`, but a parsed
Summary starts with `isImportant` equal to whether its impact is `high`. -/
theorem generation_flags (svc : AIService) (now content err : String) (pr : PullRequest) :
    (parseSummaryResponse svc now content pr).isReviewed = false ∧
    (parseSummaryResponse svc now content pr).isImportant =
      decide (determineImpact content pr = Level.high) ∧
    (createFallbackSummary now pr err).isReviewed = false ∧
    (createFallbackSummary now pr err).isImportant = false :=
  ⟨rfl, rfl, rfl, rfl⟩

/-- C7 counterexample: a fallback Summary for a PR with 15 changed files and
no added or deleted lines gets impact `high`, while the data-model size rule
of the claim (changedFiles > 20 or additions+deletions > 1000 for high,
changedFiles ≤ 3 or additions+deletions ≤ 50 for low) would give `low`. -/
theorem fallback_impact_counterexample :
    ¬ ((createFallbackSummary now0 prCf15 "boom").impact =
        if 20 < prCf15.changedFiles ∨ 1000 < prCf15.additions + prCf15.deletions then
          Level.high
        else if prCf15.changedFiles ≤ 3 ∨ prCf15.additions + prCf15.deletions ≤ 50 then
          Level.low
        else Level.medium) := by decide

/-- C7 (amended): every fallback Summary has provider "fallback", model
"none", confidence 0.3, the two basic size facts as key changes, and an
impact computed from the changed-file count alone: `high` iff more than 10
files, `medium` iff more than 3 and at most 10, `low` iff at most 3 —
additions and deletions are ignored. -/
theorem createFallbackSummary_fields (now : String) (pr : PullRequest) (err : String) :
    (createFallbackSummary now pr err).aiProvider = "fallback" ∧
    (createFallbackSummary now pr err).model = "none" ∧
    (createFallbackSummary now pr err).confidence = 3/10 ∧
    (createFallbackSummary now pr err).keyChanges =
      [toString pr.changedFiles ++ " files changed",
       "+" ++ toString pr.additions ++ "/-" ++ toString pr.deletions ++ " lines"] ∧
    ((createFallbackSummary now pr err).impact = Level.high ↔ 10 < pr.changedFiles) ∧
    ((createFallbackSummary now pr err).impact = Level.medium ↔
      3 < pr.changedFiles ∧ pr.changedFiles ≤ 10) ∧
    ((createFallbackSummary now pr err).impact = Level.low ↔ pr.changedFiles ≤ 3) := by
  refine ⟨rfl, rfl, rfl, rfl, ?_, ?_, ?_⟩ <;>
    · simp only [createFallbackSummary, gt_iff_lt]
      split_ifs with u v <;> simp <;> omega

/-- C8 counterexample: transports succeed but the text content is
whitespace-only (chat completion) or empty (message API, local endpoint),
and each backend returns the text instead of failing with `EmptyResponse`. -/
theorem emptyResponse_counterexample :
    callOpenAI svcBoth envWhite = Except.ok " " ∧
    callClaude svcBoth envWhite = Except.ok "" ∧
    callOllama envWhite = Except.ok " " := ⟨rfl, rfl, rfl⟩

/-- C8 (amended): only the hosted chat-completion backend checks for empty
content, and only for an absent or empty string — whitespace-only content is
returned as text; the hosted message backend returns any text block
unchecked; the local completion backend returns the response field (or the
empty string) unchecked. -/
theorem emptyResponse_handling (svc : AIService) (env : ProviderEnv) :
    (svc.openaiInit = true → env.openaiContent = some "" →
      callOpenAI svc env = Except.error "OpenAI returned empty response") ∧
    (svc.openaiInit = true → env.openaiContent = none →
      callOpenAI svc env = Except.error "OpenAI returned empty response") ∧
    (∀ s, svc.openaiInit = true → env.openaiContent = some s → s ≠ "" →
      callOpenAI svc env = Except.ok s) ∧
    (∀ s, svc.claudeInit = true → env.claudeBlock = some (.text s) →
      callClaude svc env = Except.ok s) ∧
    (env.ollamaOk = true → callOllama env = Except.ok (env.ollamaResponse.getD "")) := by
  refine ⟨?_, ?_, ?_, ?_, ?_⟩
  · intro hi hc
    simp [callOpenAI, hi, hc]
  · intro hi hc
    simp [callOpenAI, hi, hc]
  · intro s hi hc hne
    simp [callOpenAI, hi, hc, hne]
  · intro s hi hc
    simp [callClaude, hi, hc]
  · intro ho
    simp [callOllama, ho]

/-- C8 witness: concrete uses of the amended behaviour — the chat-completion
backend rejecting empty content and returning whitespace-only content, the
message backend returning an empty text block, the local backend returning
its response field. -/
theorem emptyResponse_handling_witness :
    callOpenAI svcBoth envEmptyOpenai = Except.error "OpenAI returned empty response" ∧
    callOpenAI svcBoth envWhite = Except.ok " " ∧
    callClaude svcBoth envWhite = Except.ok "" ∧
    callOllama envWhite = Except.ok (envWhite.ollamaResponse.getD "") :=
  ⟨(emptyResponse_handling svcBoth envEmptyOpenai).1 (by decide) (by decide),
   (emptyResponse_handling svcBoth envWhite).2.2.1 " " (by decide) (by decide) (by decide),
   (emptyResponse_handling svcBoth envWhite).2.2.2.1 "" (by decide) (by decide),
   (emptyResponse_handling svcBoth envWhite).2.2.2.2 (by decide)⟩

/-- C10: when the provider call succeeds under the merged (overridden)
config, the recorded `aiProvider` and `model` come from the process-wide
default config, not from the merged per-call config. -/
theorem recordedProvider_from_default (svc : AIService) (env : ProviderEnv)
    (now : String) (pr : PullRequest) (options : PartialAIProviderConfig) (t : String)
    (h : callLLM svc env (mergeConfig svc.defaultConfig options) = Except.ok t) :
    (generatePRSummary svc env now pr options).aiProvider = svc.defaultConfig.provider.str ∧
    (generatePRSummary svc env now pr options).model = svc.defaultConfig.model := by
  simp only [generatePRSummary, h]
  exact ⟨rfl, rfl⟩

/-- C10 witness: the default provider is `openai` (model "gpt-4"), the call
is overridden to use the local `ollama` backend (model "llama2") and
succeeds, yet the Summary records the default provider and model. -/
theorem recordedProvider_from_default_witness :
    (generatePRSummary svcNoCreds envOllamaUp now0 prSmall optsOllama).aiProvider = "openai" ∧
    (generatePRSummary svcNoCreds envOllamaUp now0 prSmall optsOllama).model = "gpt-4" :=
  recordedProvider_from_default svcNoCreds envOllamaUp now0 prSmall optsOllama "All good" rfl

/-- Successful `toggleReviewed` decomposes the store at the first matching
summary and flips exactly its `isReviewed` flag. -/
theorem toggleReviewed_some_shape (id : String) :
    ∀ (store : List PRSummary) (t : PRSummary) (rest : List PRSummary),
      toggleReviewed id store = some (t, rest) →
      ∃ pre s post, store = pre ++ s :: post ∧ (∀ u ∈ pre, u.id ≠ id) ∧ s.id = id ∧
        t = { s with isReviewed := !s.isReviewed } ∧ rest = pre ++ t :: post := by
  intro store
  induction store with
  | nil => intro t rest h; simp [toggleReviewed] at h
  | cons s ss ih =>
    intro t rest h
    by_cases hs : s.id = id
    · simp only [toggleReviewed, if_pos hs, Option.some_inj, Prod.mk.injEq] at h
      obtain ⟨h1, h2⟩ := h
      exact ⟨[], s, ss, rfl, by simp, hs, h1.symm, by rw [← h2, ← h1]; rfl⟩
    · simp only [toggleReviewed, if_neg hs, Option.map_eq_some'] at h
      obtain ⟨⟨t0, r0⟩, h0, heq⟩ := h
      obtain ⟨h1, h2⟩ := Prod.mk.injEq .. ▸ heq
      obtain ⟨pre, s1, post, hstore, hpre, hs1, ht, hrest⟩ := ih t0 r0 h0
      refine ⟨s :: pre, s1, post, by rw [hstore]; rfl, ?_, hs1, h1 ▸ ht, ?_⟩
      · intro u hu
        rcases List.mem_cons.mp hu with hu1 | hu2
        · rw [hu1]; exact hs
        · exact hpre u hu2
      · rw [← h2, hrest, ← h1]; rfl

/-- Successful `toggleImportant` decomposes the store at the first matching
summary and flips exactly its `isImportant` flag. -/
theorem toggleImportant_some_shape (id : String) :
    ∀ (store : List PRSummary) (t : PRSummary) (rest : List PRSummary),
      toggleImportant id store = some (t, rest) →
      ∃ pre s post, store = pre ++ s :: post ∧ (∀ u ∈ pre, u.id ≠ id) ∧ s.id = id ∧
        t = { s with isImportant := !s.isImportant } ∧ rest = pre ++ t :: post := by
  intro store
  induction store with
  | nil => intro t rest h; simp [toggleImportant] at h
  | cons s ss ih =>
    intro t rest h
    by_cases hs : s.id = id
    · simp only [toggleImportant, if_pos hs, Option.some_inj, Prod.mk.injEq] at h
      obtain ⟨h1, h2⟩ := h
      exact ⟨[], s, ss, rfl, by simp, hs, h1.symm, by rw [← h2, ← h1]; rfl⟩
    · simp only [toggleImportant, if_neg hs, Option.map_eq_some'] at h
      obtain ⟨⟨t0, r0⟩, h0, heq⟩ := h
      obtain ⟨h1, h2⟩ := Prod.mk.injEq .. ▸ heq
      obtain ⟨pre, s1, post, hstore, hpre, hs1, ht, hrest⟩ := ih t0 r0 h0
      refine ⟨s :: pre, s1, post, by rw [hstore]; rfl, ?_, hs1, h1 ▸ ht, ?_⟩
      · intro u hu
        rcases List.mem_cons.mp hu with hu1 | hu2
        · rw [hu1]; exact hs
        · exact hpre u hu2
      · rw [← h2, hrest, ← h1]; rfl

/-- Computation of `toggleReviewed` on a store decomposed at the first
matching summary. -/
theorem toggleReviewed_append (id : String) (pre : List PRSummary) (s : PRSummary)
    (post : List PRSummary) (hpre : ∀ u ∈ pre, u.id ≠ id) (hs : s.id = id) :
    toggleReviewed id (pre ++ s :: post) =
      some ({ s with isReviewed := !s.isReviewed },
        pre ++ { s with isReviewed := !s.isReviewed } :: post) := by
  induction pre with
  | nil => simp [toggleReviewed, hs]
  | cons u us ih =>
    have hu : ¬(u.id = id) := hpre u (by simp)
    have ih2 := ih (fun v hv => hpre v (List.mem_cons_of_mem u hv))
    simp [toggleReviewed, hu, ih2]

/-- Computation of `toggleImportant` on a store decomposed at the first
matching summary. -/
theorem toggleImportant_append (id : String) (pre : List PRSummary) (s : PRSummary)
    (post : List PRSummary) (hpre : ∀ u ∈ pre, u.id ≠ id) (hs : s.id = id) :
    toggleImportant id (pre ++ s :: post) =
      some ({ s with isImportant := !s.isImportant },
        pre ++ { s with isImportant := !s.isImportant } :: post) := by
  induction pre with
  | nil => simp [toggleImportant, hs]
  | cons u us ih =>
    have hu : ¬(u.id = id) := hpre u (by simp)
    have ih2 := ih (fun v hv => hpre v (List.mem_cons_of_mem u hv))
    simp [toggleImportant, hu, ih2]

/-- `toggleReviewed` reports `NotFound` exactly when no stored summary has
the requested id. -/
theorem toggleReviewed_none_iff (id : String) (store : List PRSummary) :
    toggleReviewed id store = none ↔ ∀ s ∈ store, ¬(s.id = id) := by
  induction store with
  | nil => simp [toggleReviewed]
  | cons s ss ih =>
    by_cases hs : s.id = id
    · simp [toggleReviewed, hs]
    · simp [toggleReviewed, hs, Option.map_eq_none', ih]

/-- `toggleImportant` reports `NotFound` exactly when no stored summary has
the requested id. -/
theorem toggleImportant_none_iff (id : String) (store : List PRSummary) :
    toggleImportant id store = none ↔ ∀ s ∈ store, ¬(s.id = id) := by
  induction store with
  | nil => simp [toggleImportant]
  | cons s ss ih =>
    by_cases hs : s.id = id
    · simp [toggleImportant, hs]
    · simp [toggleImportant, hs, Option.map_eq_none', ih]

/-- C9: `toggleReviewed` flips only `isReviewed` and `toggleImportant` flips
only `isImportant` of the (first) summary with the given id, leaving every
other field — in particular `createdAt` — unchanged; both fail with
`NotFound` exactly when no stored summary has the id; and applying the same
toggle twice restores the store, and hence the summary, to its original
state. -/
theorem toggle_props (id : String) (store : List PRSummary) :
    (toggleReviewed id store = none ↔ ∀ s ∈ store, ¬(s.id = id)) ∧
    (toggleImportant id store = none ↔ ∀ s ∈ store, ¬(s.id = id)) ∧
    (∀ t rest, toggleReviewed id store = some (t, rest) →
      ∃ s, s ∈ store ∧ s.id = id ∧ t.isReviewed = !s.isReviewed ∧
        t.id = s.id ∧ t.prId = s.prId ∧ t.summary = s.summary ∧
        t.keyChanges = s.keyChanges ∧ t.impact = s.impact ∧
        t.isImportant = s.isImportant ∧ t.createdAt = s.createdAt ∧
        t.aiProvider = s.aiProvider ∧ t.model = s.model ∧
        t.confidence = s.confidence ∧ t.reviewPriority = s.reviewPriority) ∧
    (∀ t rest, toggleImportant id store = some (t, rest) →
      ∃ s, s ∈ store ∧ s.id = id ∧ t.isImportant = !s.isImportant ∧
        t.id = s.id ∧ t.prId = s.prId ∧ t.summary = s.summary ∧
        t.keyChanges = s.keyChanges ∧ t.impact = s.impact ∧
        t.isReviewed = s.isReviewed ∧ t.createdAt = s.createdAt ∧
        t.aiProvider = s.aiProvider ∧ t.model = s.model ∧
        t.confidence = s.confidence ∧ t.reviewPriority = s.reviewPriority) ∧
    (∀ t rest t2 rest2, toggleReviewed id store = some (t, rest) →
      toggleReviewed id rest = some (t2, rest2) →
      rest2 = store ∧ t2.isReviewed = !t.isReviewed) ∧
    (∀ t rest t2 rest2, toggleImportant id store = some (t, rest) →
      toggleImportant id rest = some (t2, rest2) →
      rest2 = store ∧ t2.isImportant = !t.isImportant) := by
  refine ⟨toggleReviewed_none_iff id store, toggleImportant_none_iff id store,
    ?_, ?_, ?_, ?_⟩
  · intro t rest h
    obtain ⟨pre, s, post, hstore, hpre, hsid, ht, hrest⟩ :=
      toggleReviewed_some_shape id store t rest h
    refine ⟨s, ?_, hsid, ?_⟩
    · rw [hstore]
      exact List.mem_append.mpr (Or.inr (List.mem_cons_self s post))
    · rw [ht]
      exact ⟨rfl, rfl, rfl, rfl, rfl, rfl, rfl, rfl, rfl, rfl, rfl, rfl⟩
  · intro t rest h
    obtain ⟨pre, s, post, hstore, hpre, hsid, ht, hrest⟩ :=
      toggleImportant_some_shape id store t rest h
    refine ⟨s, ?_, hsid, ?_⟩
    · rw [hstore]
      exact List.mem_append.mpr (Or.inr (List.mem_cons_self s post))
    · rw [ht]
      exact ⟨rfl, rfl, rfl, rfl, rfl, rfl, rfl, rfl, rfl, rfl, rfl, rfl⟩
  · intro t rest t2 rest2 h1 h2
    obtain ⟨pre, s, post, hstore, hpre, hsid, ht, hrest⟩ :=
      toggleReviewed_some_shape id store t rest h1
    have htid : t.id = id := by rw [ht]; exact hsid
    rw [hrest, toggleReviewed_append id pre t post hpre htid] at h2
    simp only [Option.some_inj, Prod.mk.injEq] at h2
    obtain ⟨h3, h4⟩ := h2
    have hts : { t with isReviewed := !t.isReviewed } = s := by
      rw [ht]; simp [Bool.not_not]
    constructor
    · rw [← h4, hts, hstore]
    · rw [← h3]
  · intro t rest t2 rest2 h1 h2
    obtain ⟨pre, s, post, hstore, hpre, hsid, ht, hrest⟩ :=
      toggleImportant_some_shape id store t rest h1
    have htid : t.id = id := by rw [ht]; exact hsid
    rw [hrest, toggleImportant_append id pre t post hpre htid] at h2
    simp only [Option.some_inj, Prod.mk.injEq] at h2
    obtain ⟨h3, h4⟩ := h2
    have hts : { t with isImportant := !t.isImportant } = s := by
      rw [ht]; simp [Bool.not_not]
    constructor
    · rw [← h4, hts, hstore]
    · rw [← h3]

/-- C9 witness: toggling `isReviewed` of summary "s2" twice in a concrete
two-element store restores the original store. -/
theorem toggle_props_witness :
    [mkSum "s1" "p1" false false, mkSum "s2" "p2" false true] = storeW :=
  ((toggle_props "s2" storeW).2.2.2.2.1 (mkSum "s2" "p2" true true)
    [mkSum "s1" "p1" false false, mkSum "s2" "p2" true true]
    (mkSum "s2" "p2" false true)
    [mkSum "s1" "p1" false false, mkSum "s2" "p2" false true]
    rfl rfl).1

/-- The chunked batching loop produces exactly the per-PR summaries in input
order. -/
theorem batchLoop_eq_map (gen : PullRequest → PRSummary) (l : List PullRequest) :
    batchLoop gen l = l.map gen := by
  have key : ∀ (n : Nat) (l : List PullRequest), l.length ≤ n →
      batchLoop gen l = l.map gen := by
    intro n
    induction n with
    | zero =>
      intro l h
      have hl : l = [] := List.length_eq_zero.mp (Nat.le_zero.mp h)
      rw [hl]; simp [batchLoop]
    | succ n ih =>
      intro l h
      match l with
      | [] => simp [batchLoop]
      | pr :: rest =>
        have hlen : rest.length ≤ n := by
          simp only [List.length_cons] at h
          omega
        have hr : (rest.drop 4).length ≤ n := by
          rw [List.length_drop]; omega
        rw [batchLoop, ih (rest.drop 4) hr, ← List.drop_succ_cons,
          ← List.map_append, List.take_append_drop]
  exact key l.length l (le_refl _)

/-- Both generation outcomes record the source PR's identifier. -/
theorem generatePRSummary_prId (svc : AIService) (env : ProviderEnv) (now : String)
    (pr : PullRequest) (options : PartialAIProviderConfig) :
    (generatePRSummary svc env now pr options).prId = pr.id := by
  simp only [generatePRSummary]
  cases callLLM svc env (mergeConfig svc.defaultConfig options) <;> rfl

/-- With no hosted client initialized and a hosted provider selected, the
provider call fails and generation takes the fallback path. -/
theorem generatePRSummary_fallback (svc : AIService) (env : ProviderEnv) (now : String)
    (pr : PullRequest) (options : PartialAIProviderConfig)
    (hav : svc.isAvailable = false)
    (hp : (mergeConfig svc.defaultConfig options).provider ≠ LLMProvider.ollama) :
    (generatePRSummary svc env now pr options).aiProvider = "fallback" := by
  have ho : svc.openaiInit = false ∧ svc.claudeInit = false := by
    simpa [AIService.isAvailable] using hav
  simp only [generatePRSummary, callLLM]
  cases hcp : (mergeConfig svc.defaultConfig options).provider with
  | openai => simp [callOpenAI, ho.1, createFallbackSummary]
  | claude => simp [callClaude, ho.2, createFallbackSummary]
  | ollama => exact absurd hcp hp

/-- C1 counterexample: with no valid credentials for any provider
(`isAvailable` is false) but the configured provider being the local
`ollama` backend — which needs no credentials — a reachable local endpoint
yields a non-fallback Summary, refuting "every returned Summary has
providerUsed = fallback". -/
theorem generateBatch_fallback_counterexample :
    AIService.isAvailable svcOllamaNoCreds = false ∧
    (generateBatchSummaries svcOllamaNoCreds envOllamaUp now0 [prSmall] {}).map
      (·.aiProvider) = ["ollama"] := by
  refine ⟨rfl, ?_⟩
  unfold generateBatchSummaries
  rw [batchLoop_eq_map]
  rfl

/-- C1 (amended): `generateBatch` returns exactly one Summary per input PR,
in input order (so no provider error escapes to the caller); and when no
provider has valid credentials and the effective provider is one of the two
hosted backends, every returned Summary has provider "fallback" (the local
`ollama` backend requires no credentials and is exempt). -/
theorem generateBatch_total (svc : AIService) (env : ProviderEnv) (now : String)
    (prs : List PullRequest) (options : PartialAIProviderConfig) :
    generateBatchSummaries svc env now prs options =
      prs.map (fun pr => generatePRSummary svc env now pr options) ∧
    (generateBatchSummaries svc env now prs options).length = prs.length ∧
    (svc.isAvailable = false →
      (mergeConfig svc.defaultConfig options).provider ≠ LLMProvider.ollama →
      (generateBatchSummaries svc env now prs options).map (·.aiProvider) =
        prs.map (fun _ => "fallback")) := by
  have hmap : generateBatchSummaries svc env now prs options =
      prs.map (fun pr => generatePRSummary svc env now pr options) :=
    batchLoop_eq_map (fun pr => generatePRSummary svc env now pr options) prs
  refine ⟨hmap, ?_, ?_⟩
  · rw [hmap, List.length_map]
  · intro hav hp
    rw [hmap, List.map_map]
    exact List.map_congr_left
      (fun pr _ => generatePRSummary_fallback svc env now pr options hav hp)

/-- C1 witness: a service with no credentials and the default hosted
provider produces a fallback Summary for each input PR. -/
theorem generateBatch_total_witness :
    (generateBatchSummaries svcNoCreds envDown now0 [prSmall] {}).map (·.aiProvider) =
      ["fallback"] :=
  (generateBatch_total svcNoCreds envDown now0 [prSmall] {}).2.2 (by decide) (by decide)

/-- In a duplicate-free identifier list each member is counted exactly
once. -/
theorem countP_beq_one_of_nodup {l : List String} {x : String}
    (hn : l.Nodup) (hx : x ∈ l) : l.countP (· == x) = 1 := by
  induction l with
  | nil => cases hx
  | cons a t ih =>
    obtain ⟨hna, hnt⟩ := List.nodup_cons.mp hn
    rcases List.mem_cons.mp hx with h | h
    · have h0 : t.countP (· == x) = 0 :=
        List.countP_eq_zero.mpr
          (fun b hb hbeq => hna (by rw [eq_of_beq hbeq, h] at hb; exact hb))
      rw [List.countP_cons, h0, ← h]
      simp
    · have hax : ¬(a == x) = true := fun hc => hna (by rwa [← eq_of_beq hc] at h)
      rw [List.countP_cons, ih hnt h, if_neg hax]

/-- An identifier outside the list is counted zero times. -/
theorem countP_beq_zero_of_not_mem {l : List String} {x : String} (hx : x ∉ l) :
    l.countP (· == x) = 0 :=
  List.countP_eq_zero.mpr (fun a ha h => hx (eq_of_beq h ▸ ha))

/-- `countId` factors through the `prId` projection. -/
theorem countId_eq_countP_map (x : String) (l : List PRSummary) :
    countId x l = (l.map (·.prId)).countP (· == x) := by
  rw [List.countP_map]
  rfl

theorem countId_append (x : String) (l1 l2 : List PRSummary) :
    countId x (l1 ++ l2) = countId x l1 + countId x l2 :=
  List.countP_append _ _ _

/-- Re-sorting the store does not change per-PR summary counts. -/
theorem countId_sort (x : String) (l : List PRSummary) :
    countId x (sortByCreatedAtDesc l) = countId x l :=
  List.Perm.countP_eq _ (List.mergeSort_perm l _)

theorem countId_eq_zero_of_not_mem {x : String} {l : List PRSummary}
    (h : x ∉ l.map (·.prId)) : countId x l = 0 := by
  rw [countId_eq_countP_map]
  exact countP_beq_zero_of_not_mem h

/-- Evicting the summaries of the regenerated ids drives their count to 0. -/
theorem countId_filter_out (x : String) (ids : List String) (l : List PRSummary)
    (hx : x ∈ ids) :
    countId x (l.filter (fun s => !(ids.contains s.prId))) = 0 := by
  apply List.countP_eq_zero.mpr
  intro s hs hbeq
  have hnc : s.prId ∉ ids := by
    simpa using (List.mem_filter.mp hs).2
  exact hnc (by rwa [eq_of_beq hbeq])

theorem countId_le_of_sublist {l1 l2 : List PRSummary} (h : l1.Sublist l2) (x : String) :
    countId x l1 ≤ countId x l2 :=
  List.Sublist.countP_le _ h

/-- The batch summaries carry exactly the input PR identifiers, in order. -/
theorem generateBatch_prIds (svc : AIService) (env : ProviderEnv) (now : String)
    (prs : List PullRequest) (options : PartialAIProviderConfig) :
    (generateBatchSummaries svc env now prs options).map (·.prId) = prs.map (·.id) := by
  unfold generateBatchSummaries
  rw [batchLoop_eq_map, List.map_map]
  exact List.map_congr_left (fun pr _ => generatePRSummary_prId svc env now pr options)

/-- Appending a batch of summaries for duplicate-free PR ids and re-sorting:
each id gains one summary if it was batched, none otherwise. -/
theorem insert_batch_counts (svc : AIService) (env : ProviderEnv) (now : String)
    (store1 : List PRSummary) (P : List PullRequest)
    (hPn : (P.map (·.id)).Nodup) (x : String) :
    countId x (sortByCreatedAtDesc (store1 ++ generateBatchSummaries svc env now P {})) =
      countId x store1 + (if x ∈ P.map (·.id) then 1 else 0) := by
  rw [countId_sort, countId_append,
    countId_eq_countP_map x (generateBatchSummaries svc env now P {}),
    generateBatch_prIds]
  congr 1
  by_cases hx : x ∈ P.map (·.id)
  · rw [if_pos hx, countP_beq_one_of_nodup hPn hx]
  · rw [if_neg hx, countP_beq_zero_of_not_mem hx]

/-- C3: under the Store invariant (at most one summary per PR id) and
pairwise-distinct input PR ids, the generate endpoint preserves the
invariant; with force = false only PRs absent from the existing summaries
are summarized (and if every input PR already has a summary, nothing is
generated and the Store is unchanged); and every summarized PR id ends up
with exactly one current summary (with force = true the old records are
evicted first). -/
theorem postGenerate_dedup (svc : AIService) (env : ProviderEnv) (now : String)
    (store : List PRSummary) (prs : List PullRequest) (force : Bool) (maxPRs : Nat)
    (hstore : AtMostOnePerPR store) (hprs : (prs.map (·.id)).Nodup) :
    AtMostOnePerPR (postGenerateSummaries svc env now store prs force maxPRs).newStore ∧
    (force = false →
      ∀ s ∈ (postGenerateSummaries svc env now store prs force maxPRs).generated,
        countId s.prId store = 0) ∧
    (force = false → (∀ pr ∈ prs, pr.id ∈ store.map (·.prId)) →
      (postGenerateSummaries svc env now store prs force maxPRs).generated = [] ∧
      (postGenerateSummaries svc env now store prs force maxPRs).newStore = store) ∧
    (∀ s ∈ (postGenerateSummaries svc env now store prs force maxPRs).generated,
      countId s.prId (postGenerateSummaries svc env now store prs force maxPRs).newStore
        = 1) := by
  cases force with
  | false =>
    have hfalse : postGenerateSummaries svc env now store prs false maxPRs =
        (if ((prs.filter (fun pr => !((store.map (·.prId)).contains pr.id))).take
            maxPRs).isEmpty then
          { generated := [], newStore := store }
        else
          { generated := generateBatchSummaries svc env now
              ((prs.filter (fun pr => !((store.map (·.prId)).contains pr.id))).take maxPRs) {}
            newStore := sortByCreatedAtDesc (store ++ generateBatchSummaries svc env now
              ((prs.filter (fun pr => !((store.map (·.prId)).contains pr.id))).take maxPRs)
              {}) }) := rfl
    rw [hfalse]
    by_cases hemp : ((prs.filter (fun pr => !((store.map (·.prId)).contains pr.id))).take
        maxPRs).isEmpty
    · rw [if_pos hemp]
      refine ⟨hstore, ?_, fun _ _ => ⟨rfl, rfl⟩, ?_⟩
      · intro _ s hs
        cases hs
      · intro s hs
        cases hs
    · rw [if_neg hemp]
      have hsub : ((prs.filter (fun pr => !((store.map (·.prId)).contains pr.id))).take
          maxPRs).Sublist prs :=
        (List.take_sublist _ _).trans (List.filter_sublist prs)
      have hPn : (((prs.filter (fun pr => !((store.map (·.prId)).contains pr.id))).take
          maxPRs).map (·.id)).Nodup :=
        List.Nodup.sublist (List.Sublist.map _ hsub) hprs
      have hPzero : ∀ x ∈ ((prs.filter (fun pr =>
          !((store.map (·.prId)).contains pr.id))).take maxPRs).map (·.id),
          countId x store = 0 := by
        intro x hx
        obtain ⟨pr, hprP, hid⟩ := List.mem_map.mp hx
        have hpr2 : pr ∈ prs.filter (fun pr => !((store.map (·.prId)).contains pr.id)) :=
          (List.take_sublist _ _).subset hprP
        have hq : pr.id ∉ store.map (·.prId) := by
          simpa using (List.mem_filter.mp hpr2).2
        apply countId_eq_zero_of_not_mem
        rw [← hid]
        exact hq
      have hmemid : ∀ s ∈ generateBatchSummaries svc env now
          ((prs.filter (fun pr => !((store.map (·.prId)).contains pr.id))).take maxPRs) {},
          s.prId ∈ ((prs.filter (fun pr =>
            !((store.map (·.prId)).contains pr.id))).take maxPRs).map (·.id) := by
        intro s hs
        have hm : s.prId ∈ (generateBatchSummaries svc env now
            ((prs.filter (fun pr => !((store.map (·.prId)).contains pr.id))).take maxPRs)
            {}).map (·.prId) := List.mem_map_of_mem _ hs
        rwa [generateBatch_prIds] at hm
      refine ⟨?_, ?_, ?_, ?_⟩
      · intro x
        show countId x (sortByCreatedAtDesc _) ≤ 1
        rw [insert_batch_counts svc env now store _ hPn x]
        by_cases hx : x ∈ ((prs.filter (fun pr =>
            !((store.map (·.prId)).contains pr.id))).take maxPRs).map (·.id)
        · rw [if_pos hx, hPzero x hx]
        · rw [if_neg hx]
          simpa using hstore x
      · intro _ s hs
        exact hPzero s.prId (hmemid s hs)
      · intro _ hall
        have hnil : prs.filter (fun pr => !((store.map (·.prId)).contains pr.id)) = [] := by
          apply List.filter_eq_nil_iff.mpr
          intro pr hpr
          simpa using hall pr hpr
        rw [hnil] at hemp
        simp [List.take_nil] at hemp
      · intro s hs
        show countId s.prId (sortByCreatedAtDesc _) = 1
        rw [insert_batch_counts svc env now store _ hPn s.prId,
          if_pos (hmemid s hs), hPzero s.prId (hmemid s hs)]
  | true =>
    have htrue : postGenerateSummaries svc env now store prs true maxPRs =
        (if (prs.take maxPRs).isEmpty then
          { generated := [], newStore := store }
        else
          { generated := generateBatchSummaries svc env now (prs.take maxPRs) {}
            newStore := sortByCreatedAtDesc
              ((store.filter (fun s =>
                !(((prs.take maxPRs).map (·.id)).contains s.prId))) ++
               generateBatchSummaries svc env now (prs.take maxPRs) {}) }) := rfl
    rw [htrue]
    by_cases hemp : (prs.take maxPRs).isEmpty
    · rw [if_pos hemp]
      refine ⟨hstore, ?_, fun h _ => absurd h (by decide), ?_⟩
      · intro _ s hs
        cases hs
      · intro s hs
        cases hs
    · rw [if_neg hemp]
      have hPn : ((prs.take maxPRs).map (·.id)).Nodup :=
        List.Nodup.sublist (List.Sublist.map _ (List.take_sublist _ _)) hprs
      have hmemid : ∀ s ∈ generateBatchSummaries svc env now (prs.take maxPRs) {},
          s.prId ∈ (prs.take maxPRs).map (·.id) := by
        intro s hs
        have hm : s.prId ∈ (generateBatchSummaries svc env now (prs.take maxPRs) {}).map
            (·.prId) := List.mem_map_of_mem _ hs
        rwa [generateBatch_prIds] at hm
      refine ⟨?_, fun h => absurd h (by decide), fun h _ => absurd h (by decide), ?_⟩
      · intro x
        show countId x (sortByCreatedAtDesc _) ≤ 1
        rw [insert_batch_counts svc env now _ _ hPn x]
        by_cases hx : x ∈ (prs.take maxPRs).map (·.id)
        · rw [if_pos hx, countId_filter_out x _ store hx]
        · rw [if_neg hx]
          have hle := countId_le_of_sublist
            (List.filter_sublist
              (p := fun s => !(((prs.take maxPRs).map (·.id)).contains s.prId)) store) x
          simpa using hle.trans (hstore x)
      · intro s hs
        show countId s.prId (sortByCreatedAtDesc _) = 1
        rw [insert_batch_counts svc env now _ _ hPn s.prId, if_pos (hmemid s hs),
          countId_filter_out s.prId _ store (hmemid s hs)]

/-- C3 witness: starting from an empty store (which trivially satisfies the
invariant) and one fresh PR, the endpoint leaves the store with at most one
summary per PR identifier. -/
theorem postGenerate_dedup_witness :
    AtMostOnePerPR (postGenerateSummaries svcNoCreds envDown now0 [] [prSmall]
      false 10).newStore :=
  (postGenerate_dedup svcNoCreds envDown now0 [] [prSmall] false 10
    (fun x => by simp [countId]) (by simp)).1
